import Mathlib

/-!
Shallow embedding of `auto-prompt-generate.py`: a script that generates one
image-prompt string via a generative-text call and appends it to a Google
spreadsheet, with layered textual error classification.

External effects (the Gemini call, the gspread calls) are modelled as explicit
outcome parameters; each task function returns a record of its emitted log
lines, its performed spreadsheet events, and its result (`Except` models
Python raise/return).
-/

/-- Python `needle in hay` substring test, as decidable list-infix on the
characters. -/
def containsStr (hay needle : String) : Bool :=
  decide (needle.data <:+: hay.data)

/-- Python `str.lower()` (character-wise lowercasing). -/
def lowerStr (s : String) : String :=
  ⟨s.data.map Char.toLower⟩

/-- Python `str.strip()`: remove leading and trailing whitespace. -/
def stripStr (s : String) : String :=
  ⟨((s.data.dropWhile Char.isWhitespace).reverse.dropWhile Char.isWhitespace).reverse⟩

/-- The `except` branch of `generate_image_prompt` (lines 90-117): lowercase
the exception text and map it through the ordered substring checks to the
sanitized message that is printed and raised. -/
def genErrorMessage (e : String) : String :=
  if containsStr (lowerStr e) "quota" || containsStr (lowerStr e) "429" then
    "⏳ Error: Google AI API Quota Exceeded."
  else if containsStr (lowerStr e) "api_key" || containsStr (lowerStr e) "403"
      || containsStr (lowerStr e) "permission" then
    "🔑 Error: Google API Key is invalid or restricted."
  else if containsStr (lowerStr e) "timeout" || containsStr (lowerStr e) "deadline" then
    "⏱️ Error: Request to Gemini timed out."
  else if containsStr (lowerStr e) "safety" || containsStr (lowerStr e) "blocked" then
    "🛡️ Error: AI response was blocked by safety filters."
  else
    "❌ Error: Prompt generation failed due to a system issue."

/-- The `except` branch of `to_spreadsheet` (lines 146-173).  Note the last
branch is an f-string interpolating the raw exception text `e`. -/
def sheetErrorMessage (e : String) : String :=
  if containsStr (lowerStr e) "quota" || containsStr (lowerStr e) "429" then
    "⏳ Error: Google Sheets API Quota Exceeded."
  else if containsStr (lowerStr e) "permission" || containsStr (lowerStr e) "403" then
    "🔑 Error: Google Sheets Permission Denied or Invalid Credentials."
  else if containsStr (lowerStr e) "not found" || containsStr (lowerStr e) "404" then
    "❌ Error: Target Worksheet or Spreadsheet ID not found."
  else if containsStr (lowerStr e) "transport" || containsStr (lowerStr e) "ssl"
      || containsStr (lowerStr e) "connect" then
    "🌐 Error: Network connection to Google API failed."
  else
    "❌ Error: Spreadsheet update failed due to a system issue -> " ++ e ++ "."

/-- The `except` branch of `main_flow` (lines 203-230). -/
def flowErrorMessage (e : String) : String :=
  if containsStr (lowerStr e) "quota" || containsStr (lowerStr e) "429" then
    "⏳ Flow Halted: API Quota Exceeded in sub-task."
  else if containsStr (lowerStr e) "permission" || containsStr (lowerStr e) "403" then
    "🔑 Flow Halted: Authentication or Permission error."
  else if containsStr (lowerStr e) "timeout" then
    "⏱️ Flow Halted: Sub-task timed out."
  else if containsStr (lowerStr e) "spreadsheet" then
    "📊 Flow Halted: Spreadsheet operation failed."
  else
    "❌ Flow Failed: An unexpected system error occurred."

/-- Error category abstraction of `to_spreadsheet`'s classifier branches. -/
inductive SheetCategory where
  | quota
  | permission
  | notFound
  | network
  | unknown
deriving DecidableEq, Repr

/-- The branch of `to_spreadsheet`'s `except` clause a description falls
into, following the source's condition order exactly. -/
def sheetClassify (e : String) : SheetCategory :=
  if containsStr (lowerStr e) "quota" || containsStr (lowerStr e) "429" then
    SheetCategory.quota
  else if containsStr (lowerStr e) "permission" || containsStr (lowerStr e) "403" then
    SheetCategory.permission
  else if containsStr (lowerStr e) "not found" || containsStr (lowerStr e) "404" then
    SheetCategory.notFound
  else if containsStr (lowerStr e) "transport" || containsStr (lowerStr e) "ssl"
      || containsStr (lowerStr e) "connect" then
    SheetCategory.network
  else
    SheetCategory.unknown

/-- The fixed sanitized message of each non-fallback branch of
`to_spreadsheet`'s classifier; `none` for the fallback branch, whose message
is not fixed (it interpolates the raw description). -/
def fixedSheetMessage : SheetCategory → Option String
  | SheetCategory.quota => some "⏳ Error: Google Sheets API Quota Exceeded."
  | SheetCategory.permission =>
      some "🔑 Error: Google Sheets Permission Denied or Invalid Credentials."
  | SheetCategory.notFound => some "❌ Error: Target Worksheet or Spreadsheet ID not found."
  | SheetCategory.network => some "🌐 Error: Network connection to Google API failed."
  | SheetCategory.unknown => none

/-- Outcome of the `client.models.generate_content` call: a response whose
`.text` is `none` (absent) or a string, or a raised exception with the given
`str(e)` description. -/
inductive GenOutcome where
  | ok (text : Option String)
  | exn (descr : String)

/-- Observable behaviour of one `generate_image_prompt` invocation. -/
structure GenRun where
  logs : List String
  result : Except String String

/-- `generate_image_prompt` (lines 41-117): validate `response.text`
(truthiness then `len(strip()) > 0`), return the stripped text on success;
otherwise raise `Prompt Generation Failed: Empty Output` — which the
function's own `except` clause catches and re-classifies, like any exception
from the call itself. -/
def generate_image_prompt : GenOutcome → GenRun
  | GenOutcome.exn d =>
      { logs := [genErrorMessage d], result := Except.error (genErrorMessage d) }
  | GenOutcome.ok none =>
      { logs := ["⚠️ Warning: Gemini returned an empty response.",
                 genErrorMessage "Prompt Generation Failed: Empty Output"],
        result := Except.error (genErrorMessage "Prompt Generation Failed: Empty Output") }
  | GenOutcome.ok (some s) =>
      if s ≠ "" ∧ 0 < (stripStr s).length then
        { logs := ["✅ Generated Prompt: " ++ stripStr s],
          result := Except.ok (stripStr s) }
      else
        { logs := ["⚠️ Warning: Gemini returned an empty response.",
                   genErrorMessage "Prompt Generation Failed: Empty Output"],
          result := Except.error (genErrorMessage "Prompt Generation Failed: Empty Output") }

/-- A remote spreadsheet call performed by the script. -/
inductive SheetEvent where
  | openSpreadsheet (name : String)
  | openWorksheet (tab : String)
  | appendRow (tab : String) (row : List String)
deriving DecidableEq, Repr

/-- The calls `get_google_sheets` performs when it succeeds (lines 27-39):
open the spreadsheet by name, then select the two tabs. -/
def openEvents : List SheetEvent :=
  [SheetEvent.openSpreadsheet "Image Prompt",
   SheetEvent.openWorksheet "Process",
   SheetEvent.openWorksheet "Done"]

/-- Environment of one `to_spreadsheet` invocation: outcome of
`get_google_sheets` and, if reached, of `append_row` (each an exception
description on failure). -/
structure SheetsEnv where
  openResult : Except String Unit
  appendResult : Except String Unit

/-- Observable behaviour of one `to_spreadsheet` invocation. -/
structure SheetRun where
  events : List SheetEvent
  logs : List String
  result : Except String Unit

/-- `to_spreadsheet` (lines 119-173): connect first, then validate
`prompt_text`, then `ws_process.append_row([prompt_text])`.  The empty-input
`raise` happens inside the `try`, so it is caught and re-classified by the
same `except` clause that handles remote faults. -/
def to_spreadsheet (env : SheetsEnv) (prompt_text : Option String) : SheetRun :=
  match env.openResult with
  | Except.error d =>
      { events := [],
        logs := [sheetErrorMessage d],
        result := Except.error (sheetErrorMessage d) }
  | Except.ok _ =>
      match prompt_text with
      | some s =>
          if 0 < (stripStr s).length then
            match env.appendResult with
            | Except.ok _ =>
                { events := openEvents ++ [SheetEvent.appendRow "Process" [s]],
                  logs := ["✅ Successfully appended prompt: " ++ s.take 30 ++ "..."],
                  result := Except.ok () }
            | Except.error d =>
                { events := openEvents,
                  logs := [sheetErrorMessage d],
                  result := Except.error (sheetErrorMessage d) }
          else
            { events := openEvents,
              logs := ["⚠️ Warning: Prompt text is empty or None.",
                       sheetErrorMessage "Spreadsheet Error: Empty Input Data"],
              result := Except.error (sheetErrorMessage "Spreadsheet Error: Empty Input Data") }
      | none =>
          { events := openEvents,
            logs := ["⚠️ Warning: Prompt text is empty or None.",
                     sheetErrorMessage "Spreadsheet Error: Empty Input Data"],
            result := Except.error (sheetErrorMessage "Spreadsheet Error: Empty Input Data") }

/-- Observable behaviour of one `main_flow` run. -/
structure FlowRun where
  sheetCalled : Bool
  logs : List String
  result : Except String Unit

/-- `main_flow` (lines 175-230): run the generator; if it raised, or its
output fails the defensive re-validation, classify and fail; otherwise run
`to_spreadsheet` and classify its failure if any. -/
def main_flow (g : GenOutcome) (env : SheetsEnv) : FlowRun :=
  let gr := generate_image_prompt g
  match gr.result with
  | Except.error m =>
      { sheetCalled := false,
        logs := gr.logs ++ [flowErrorMessage m],
        result := Except.error (flowErrorMessage m) }
  | Except.ok ptext =>
      if 0 < (stripStr ptext).length then
        let sr := to_spreadsheet env (some ptext)
        match sr.result with
        | Except.ok _ =>
            { sheetCalled := true,
              logs := gr.logs ++ sr.logs ++ ["✅ Flow completed successfully."],
              result := Except.ok () }
        | Except.error m =>
            { sheetCalled := true,
              logs := gr.logs ++ sr.logs ++ [flowErrorMessage m],
              result := Except.error (flowErrorMessage m) }
      else
        { sheetCalled := false,
          logs := gr.logs ++ ["⚠️ Flow Interrupted: Generated prompt is invalid.",
                              flowErrorMessage "Flow Error: Generator returned empty data."],
          result :=
            Except.error (flowErrorMessage "Flow Error: Generator returned empty data.") }

/-- Environment in which both spreadsheet calls succeed. -/
def allOkEnv : SheetsEnv :=
  { openResult := Except.ok (), appendResult := Except.ok () }

/-- Whether a spreadsheet event is a row append (a write). -/
def isAppendEvent : SheetEvent → Bool
  | SheetEvent.appendRow _ _ => true
  | _ => false

theorem strData_append (a b : String) : (a ++ b).data = a.data ++ b.data := by
  cases a; cases b; rfl

theorem containsStr_of_infix {hay needle : String} (h : needle.data <:+: hay.data) :
    containsStr hay needle = true := by
  simpa [containsStr] using h

theorem infix_of_containsStr {hay needle : String} (h : containsStr hay needle = true) :
    needle.data <:+: hay.data := by
  simpa [containsStr] using h

theorem containsStr_lower {hay needle : String} (h : containsStr hay needle = true) :
    containsStr (lowerStr hay) (lowerStr needle) = true := by
  apply containsStr_of_infix
  rcases infix_of_containsStr h with ⟨s, t, e⟩
  refine ⟨s.map Char.toLower, t.map Char.toLower, ?_⟩
  show s.map Char.toLower ++ needle.data.map Char.toLower ++ t.map Char.toLower
      = hay.data.map Char.toLower
  rw [← e]; simp

theorem containsStr_trans {a b c : String} (hab : containsStr b a = true)
    (hbc : containsStr c b = true) : containsStr c a = true :=
  containsStr_of_infix ((infix_of_containsStr hab).trans (infix_of_containsStr hbc))

theorem to_spreadsheet_events_of_valid (env : SheetsEnv) (s : String)
    (ho : env.openResult = Except.ok ()) (ha : env.appendResult = Except.ok ())
    (hs : 0 < (stripStr s).length) :
    (to_spreadsheet env (some s)).events
      = openEvents ++ [SheetEvent.appendRow "Process" [s]] := by
  simp [to_spreadsheet, ho, ha, hs]

/-- C1 (counterexample): with both spreadsheet calls succeeding and the
surrounding-whitespace input, `to_spreadsheet` never appends the trimmed row
["A lone lighthouse at dusk, moody cinematic lighting"]; the claim that it
appends the trimmed string is false. -/
theorem c1_trimmed_row_not_appended :
    SheetEvent.appendRow "Process" ["A lone lighthouse at dusk, moody cinematic lighting"] ∉
      (to_spreadsheet allOkEnv
        (some "  A lone lighthouse at dusk, moody cinematic lighting  ")).events := by
  decide

/-- C1 (amended): for prompt_text = "  A lone lighthouse at dusk, moody
cinematic lighting  ", `to_spreadsheet` appends the single-cell row holding
the input string exactly as given (untrimmed — `append_row([prompt_text])`
uses the raw argument, trimming only in the validation test) to the "Process"
worksheet, and performs no append on "Done". -/
theorem c1_appends_raw_untrimmed_row :
    (to_spreadsheet allOkEnv
        (some "  A lone lighthouse at dusk, moody cinematic lighting  ")).events
      = openEvents ++
        [SheetEvent.appendRow "Process"
          ["  A lone lighthouse at dusk, moody cinematic lighting  "]] ∧
    ∀ row, SheetEvent.appendRow "Done" row ∉
      (to_spreadsheet allOkEnv
        (some "  A lone lighthouse at dusk, moody cinematic lighting  ")).events := by
  have he := to_spreadsheet_events_of_valid allOkEnv
    "  A lone lighthouse at dusk, moody cinematic lighting  " rfl rfl (by decide)
  refine ⟨he, ?_⟩
  intro row
  rw [he]
  simp [openEvents]

/-- C5 (confirmed): any fault description containing "429" or "quota"
case-insensitively is classified as the QuotaExceeded category by all three
classifiers (`generate_image_prompt`, `to_spreadsheet`, `main_flow`),
whatever other substrings are present, because the quota test comes first in
each chain. -/
theorem c5_quota_pattern_first (d : String)
    (h : containsStr (lowerStr d) "429" = true ∨ containsStr (lowerStr d) "quota" = true) :
    genErrorMessage d = "⏳ Error: Google AI API Quota Exceeded." ∧
    sheetErrorMessage d = "⏳ Error: Google Sheets API Quota Exceeded." ∧
    flowErrorMessage d = "⏳ Flow Halted: API Quota Exceeded in sub-task." := by
  rcases h with h | h <;>
    exact ⟨by simp [genErrorMessage, h], by simp [sheetErrorMessage, h],
           by simp [flowErrorMessage, h]⟩

/-- C5 witness: a description containing "429" together with permission,
timeout and not-found keywords is still quota-classified in all three
layers. -/
theorem c5_quota_pattern_first_witness :
    containsStr (lowerStr "429: QUOTA hit; permission denied; timeout; not found") "429"
        = true ∧
    genErrorMessage "429: QUOTA hit; permission denied; timeout; not found"
        = "⏳ Error: Google AI API Quota Exceeded." ∧
    sheetErrorMessage "429: QUOTA hit; permission denied; timeout; not found"
        = "⏳ Error: Google Sheets API Quota Exceeded." ∧
    flowErrorMessage "429: QUOTA hit; permission denied; timeout; not found"
        = "⏳ Flow Halted: API Quota Exceeded in sub-task." :=
  ⟨by decide,
   c5_quota_pattern_first "429: QUOTA hit; permission denied; timeout; not found"
     (Or.inl (by decide))⟩

/-- C7 (confirmed): whenever the generation response text strips to a
non-empty string, `generate_image_prompt` returns exactly the stripped text
and raises no failure. -/
theorem c7_returns_trimmed_text (t : String) (h : 0 < (stripStr t).length) :
    (generate_image_prompt (GenOutcome.ok (some t))).result = Except.ok (stripStr t) := by
  have ht : t ≠ "" := by
    intro e
    subst e
    exact absurd h (by decide)
  simp [generate_image_prompt, ht, h]

/-- C7 witness: at the concrete response text "  hello  ". -/
theorem c7_returns_trimmed_text_witness :
    0 < (stripStr "  hello  ").length ∧
    (generate_image_prompt (GenOutcome.ok (some "  hello  "))).result
        = Except.ok (stripStr "  hello  ") :=
  ⟨by decide, c7_returns_trimmed_text "  hello  " (by decide)⟩

/-- C10 (confirmed): a fault description containing "api_key"
case-insensitively but neither "quota" nor "429" is classified by
`generate_image_prompt` as the permission-denied category ("Google API Key is
invalid or restricted"), even with no "403" or "permission" substring. -/
theorem c10_api_key_is_permission_denied (d : String)
    (hk : containsStr (lowerStr d) "api_key" = true)
    (hq : containsStr (lowerStr d) "quota" = false)
    (h4 : containsStr (lowerStr d) "429" = false) :
    genErrorMessage d = "🔑 Error: Google API Key is invalid or restricted." := by
  simp [genErrorMessage, hk, hq, h4]

/-- C10 witness: at the concrete description "API_KEY missing" (no 403, no
permission substring). -/
theorem c10_api_key_is_permission_denied_witness :
    containsStr (lowerStr "API_KEY missing") "api_key" = true ∧
    containsStr (lowerStr "API_KEY missing") "quota" = false ∧
    containsStr (lowerStr "API_KEY missing") "429" = false ∧
    genErrorMessage "API_KEY missing" = "🔑 Error: Google API Key is invalid or restricted." :=
  ⟨by decide, by decide, by decide,
   c10_api_key_is_permission_denied "API_KEY missing" (by decide) (by decide) (by decide)⟩

/-- C3 (counterexample): for the all-whitespace response text "   ", the
failure `generate_image_prompt` raises carries the generic
unknown-system-failure message, not an EmptyOutput-classified one: the
internal "Prompt Generation Failed: Empty Output" exception is raised inside
the `try` and re-classified by the function's own fallback branch. -/
theorem c3_empty_output_is_reclassified :
    (generate_image_prompt (GenOutcome.ok (some "   "))).result
        = Except.error "❌ Error: Prompt generation failed due to a system issue." ∧
    "❌ Error: Prompt generation failed due to a system issue."
        ≠ "Prompt Generation Failed: Empty Output" :=
  ⟨rfl, by decide⟩

/-- C3 (amended): for every generation response whose text is absent, empty or
all-whitespace, `generate_image_prompt` fails; what it logs is exactly the
fixed warning line plus the fixed fallback message, and what it raises is
that fixed fallback message (the internal EmptyOutput exception having been
re-caught and re-classified by the generic branch) — both are constants, so
no credential material and no raw underlying error text appears. -/
theorem c3_empty_generation_behavior (t : Option String)
    (h : t = none ∨ ∃ s, t = some s ∧ (stripStr s).length = 0) :
    (generate_image_prompt (GenOutcome.ok t)).logs
        = ["⚠️ Warning: Gemini returned an empty response.",
           "❌ Error: Prompt generation failed due to a system issue."] ∧
    (generate_image_prompt (GenOutcome.ok t)).result
        = Except.error "❌ Error: Prompt generation failed due to a system issue." := by
  have hemsg : genErrorMessage "Prompt Generation Failed: Empty Output"
      = "❌ Error: Prompt generation failed due to a system issue." := by decide
  rcases h with rfl | ⟨s, rfl, hs⟩
  · exact ⟨by simp [generate_image_prompt, hemsg], by simp [generate_image_prompt, hemsg]⟩
  · have hcond : ¬(s ≠ "" ∧ 0 < (stripStr s).length) := by
      rintro ⟨-, h0⟩
      omega
    exact ⟨by simp [generate_image_prompt, hcond, hemsg],
           by simp [generate_image_prompt, hcond, hemsg]⟩

/-- C3 witness: at the concrete all-whitespace response text "   ". -/
theorem c3_empty_generation_behavior_witness :
    ((some "   " : Option String) = none ∨
      ∃ s, (some "   " : Option String) = some s ∧ (stripStr s).length = 0) ∧
    (generate_image_prompt (GenOutcome.ok (some "   "))).logs
        = ["⚠️ Warning: Gemini returned an empty response.",
           "❌ Error: Prompt generation failed due to a system issue."] ∧
    (generate_image_prompt (GenOutcome.ok (some "   "))).result
        = Except.error "❌ Error: Prompt generation failed due to a system issue." :=
  ⟨Or.inr ⟨"   ", rfl, by decide⟩,
   c3_empty_generation_behavior (some "   ") (Or.inr ⟨"   ", rfl, by decide⟩)⟩

/-- C4 (counterexample): for prompt_text = "" with both remote calls healthy,
the failure `to_spreadsheet` raises is not the EmptyAppendInput message
"Spreadsheet Error: Empty Input Data": that exception is raised inside the
`try`, re-caught, and re-classified by the fallback branch, which
interpolates it into the unknown-system-failure message. -/
theorem c4_empty_input_is_reclassified :
    (to_spreadsheet allOkEnv (some "")).result
        = Except.error
            "❌ Error: Spreadsheet update failed due to a system issue -> Spreadsheet Error: Empty Input Data." ∧
    "❌ Error: Spreadsheet update failed due to a system issue -> Spreadsheet Error: Empty Input Data."
        ≠ "Spreadsheet Error: Empty Input Data" :=
  ⟨rfl, by decide⟩

/-- C4 (amended): for prompt_text = None, "" or any all-whitespace string,
`to_spreadsheet` performs no append_row call on any worksheet and, when the
connection step succeeds, fails by raising the fallback unknown-system
message with "Spreadsheet Error: Empty Input Data" interpolated into it (the
internal EmptyAppendInput exception is re-caught by the same handler). -/
theorem c4_empty_input_behavior (env : SheetsEnv) (t : Option String)
    (h : t = none ∨ ∃ s, t = some s ∧ (stripStr s).length = 0) :
    (∀ tab row, SheetEvent.appendRow tab row ∉ (to_spreadsheet env t).events) ∧
    (env.openResult = Except.ok () →
      (to_spreadsheet env t).result
        = Except.error
            "❌ Error: Spreadsheet update failed due to a system issue -> Spreadsheet Error: Empty Input Data.") := by
  have hemsg : sheetErrorMessage "Spreadsheet Error: Empty Input Data"
      = "❌ Error: Spreadsheet update failed due to a system issue -> Spreadsheet Error: Empty Input Data." := by
    decide
  cases ho : env.openResult with
  | error d =>
      refine ⟨fun tab row => by simp [to_spreadsheet, ho], fun he => ?_⟩
      exact Except.noConfusion he
  | ok u =>
      cases u
      rcases h with rfl | ⟨s, rfl, hs⟩
      · exact ⟨fun tab row => by simp [to_spreadsheet, ho, openEvents],
               fun _ => by simp [to_spreadsheet, ho, hemsg]⟩
      · have hcond : ¬0 < (stripStr s).length := by omega
        exact ⟨fun tab row => by simp [to_spreadsheet, ho, hcond, openEvents],
               fun _ => by simp [to_spreadsheet, ho, hcond, hemsg]⟩

/-- C4 witness: at prompt_text = "" in the healthy environment. -/
theorem c4_empty_input_behavior_witness :
    (∀ tab row, SheetEvent.appendRow tab row ∉ (to_spreadsheet allOkEnv (some "")).events) ∧
    (to_spreadsheet allOkEnv (some "")).result
        = Except.error
            "❌ Error: Spreadsheet update failed due to a system issue -> Spreadsheet Error: Empty Input Data." :=
  ⟨(c4_empty_input_behavior allOkEnv (some "") (Or.inr ⟨"", rfl, by decide⟩)).1,
   (c4_empty_input_behavior allOkEnv (some "") (Or.inr ⟨"", rfl, by decide⟩)).2 rfl⟩

/-- C2 (counterexample): for the fault description "Deadline Exceeded", the
generator does fail with its Timeout-classified message, but `main_flow`
re-classifies that message into its generic unknown category, not its
flow-level Timeout category: the generator's message reads "timed out" while
the flow tests for the substring "timeout", which does not match. The run
still fails without `to_spreadsheet` being invoked. -/
theorem c2_flow_misses_timeout_category :
    (generate_image_prompt (GenOutcome.exn "Deadline Exceeded")).result
        = Except.error "⏱️ Error: Request to Gemini timed out." ∧
    (main_flow (GenOutcome.exn "Deadline Exceeded") allOkEnv).result
        = Except.error "❌ Flow Failed: An unexpected system error occurred." ∧
    "❌ Flow Failed: An unexpected system error occurred."
        ≠ "⏱️ Flow Halted: Sub-task timed out." ∧
    (main_flow (GenOutcome.exn "Deadline Exceeded") allOkEnv).sheetCalled = false :=
  ⟨rfl, rfl, by decide, rfl⟩

/-- C2 (amended): for every generation fault whose description contains
"Deadline Exceeded" (and none of the earlier-tested patterns quota / 429 /
api_key / 403 / permission), `generate_image_prompt` fails with its
Timeout-classified message, and `main_flow` catches that message,
re-classifies it into its generic unknown flow category (its "timeout"
substring test does not match the generator's "timed out" wording), and the
run fails without `to_spreadsheet` ever being invoked. -/
theorem c2_deadline_fault_flow_behavior (d : String) (env : SheetsEnv)
    (hd : containsStr d "Deadline Exceeded" = true)
    (hq : containsStr (lowerStr d) "quota" = false)
    (h4 : containsStr (lowerStr d) "429" = false)
    (hk : containsStr (lowerStr d) "api_key" = false)
    (h3 : containsStr (lowerStr d) "403" = false)
    (hp : containsStr (lowerStr d) "permission" = false) :
    (generate_image_prompt (GenOutcome.exn d)).result
        = Except.error "⏱️ Error: Request to Gemini timed out." ∧
    (main_flow (GenOutcome.exn d) env).result
        = Except.error "❌ Flow Failed: An unexpected system error occurred." ∧
    (main_flow (GenOutcome.exn d) env).sheetCalled = false := by
  have hdl : containsStr (lowerStr d) "deadline" = true := by
    have h1 : containsStr (lowerStr d) (lowerStr "Deadline Exceeded") = true :=
      containsStr_lower hd
    have h2 : containsStr (lowerStr "Deadline Exceeded") "deadline" = true := by decide
    exact containsStr_trans h2 h1
  have hgen : genErrorMessage d = "⏱️ Error: Request to Gemini timed out." := by
    simp [genErrorMessage, hq, h4, hk, h3, hp, hdl]
  have hflow : flowErrorMessage "⏱️ Error: Request to Gemini timed out."
      = "❌ Flow Failed: An unexpected system error occurred." := by decide
  refine ⟨by simp [generate_image_prompt, hgen], ?_, ?_⟩
  · simp [main_flow, generate_image_prompt, hgen, hflow]
  · simp [main_flow, generate_image_prompt, hgen]

/-- C2 witness: at the concrete description "Deadline Exceeded" in the
healthy spreadsheet environment. -/
theorem c2_deadline_fault_flow_behavior_witness :
    containsStr "Deadline Exceeded" "Deadline Exceeded" = true ∧
    (generate_image_prompt (GenOutcome.exn "Deadline Exceeded")).result
        = Except.error "⏱️ Error: Request to Gemini timed out." ∧
    (main_flow (GenOutcome.exn "Deadline Exceeded") allOkEnv).result
        = Except.error "❌ Flow Failed: An unexpected system error occurred." ∧
    (main_flow (GenOutcome.exn "Deadline Exceeded") allOkEnv).sheetCalled = false :=
  ⟨by decide,
   c2_deadline_fault_flow_behavior "Deadline Exceeded" allOkEnv
     (by decide) (by decide) (by decide) (by decide) (by decide) (by decide)⟩

theorem sheetMessage_spec (e : String) :
    (sheetClassify e = SheetCategory.unknown ∧
      sheetErrorMessage e
        = "❌ Error: Spreadsheet update failed due to a system issue -> " ++ e ++ ".") ∨
    some (sheetErrorMessage e) = fixedSheetMessage (sheetClassify e) := by
  unfold sheetClassify sheetErrorMessage
  split_ifs <;> simp [fixedSheetMessage]

/-- C6 (confirmed): every fault `to_spreadsheet` classifies as
quota-exceeded, permission-denied, not-found or network-failure is raised as
the fixed sanitized string of that category, independent of the fault's
description — so two distinct faults in the same such category produce
identical raised messages — while the unknown fallback branch is the one that
interpolates the raw description into the raised message. -/
theorem c6_sheet_sanitization_hyperproperty (d d' : String) :
    (sheetClassify d ≠ SheetCategory.unknown →
      some (sheetErrorMessage d) = fixedSheetMessage (sheetClassify d) ∧
      (sheetClassify d' = sheetClassify d → sheetErrorMessage d' = sheetErrorMessage d)) ∧
    (sheetClassify d = SheetCategory.unknown →
      containsStr (sheetErrorMessage d) d = true) := by
  constructor
  · intro hne
    rcases sheetMessage_spec d with ⟨hu, -⟩ | hmd
    · exact absurd hu hne
    refine ⟨hmd, fun hcc => ?_⟩
    rcases sheetMessage_spec d' with ⟨hu', -⟩ | hmd'
    · rw [hcc] at hu'
      exact absurd hu' hne
    · rw [hcc, ← hmd] at hmd'
      exact Option.some_inj.mp hmd'
  · intro hu
    rcases sheetMessage_spec d with ⟨-, hmsg⟩ | hmd
    · rw [hmsg]
      refine containsStr_of_infix
        ⟨"❌ Error: Spreadsheet update failed due to a system issue -> ".data, ".".data, ?_⟩
      simp [strData_append]
    · rw [hu] at hmd
      simp [fixedSheetMessage] at hmd

/-- C6 witness: two distinct permission-category faults yield the identical
fixed message, and an unknown-category fault's raised message contains the
raw description. -/
theorem c6_sheet_sanitization_hyperproperty_witness :
    some (sheetErrorMessage "PERMISSION denied for user")
        = fixedSheetMessage (sheetClassify "PERMISSION denied for user") ∧
    sheetErrorMessage "403 returned by server"
        = sheetErrorMessage "PERMISSION denied for user" ∧
    containsStr (sheetErrorMessage "mysterious failure xyz") "mysterious failure xyz"
        = true :=
  ⟨((c6_sheet_sanitization_hyperproperty "PERMISSION denied for user"
      "403 returned by server").1 (by decide)).1,
   ((c6_sheet_sanitization_hyperproperty "PERMISSION denied for user"
      "403 returned by server").1 (by decide)).2 (by decide),
   (c6_sheet_sanitization_hyperproperty "mysterious failure xyz" "x").2 (by decide)⟩

/-- C8 (confirmed): on every invocation with valid (non-None, non-whitespace)
input in which the remote calls succeed, `to_spreadsheet` performs exactly
one row append, that append targets the "Process" worksheet with the
single-cell row, and no append of any kind touches the "Done" worksheet,
although both worksheet handles are opened. -/
theorem c8_single_append_to_process_only (env : SheetsEnv) (s : String)
    (ho : env.openResult = Except.ok ()) (ha : env.appendResult = Except.ok ())
    (hs : 0 < (stripStr s).length) :
    (to_spreadsheet env (some s)).events
        = openEvents ++ [SheetEvent.appendRow "Process" [s]] ∧
    ((to_spreadsheet env (some s)).events.countP isAppendEvent) = 1 ∧
    (∀ row, SheetEvent.appendRow "Done" row ∉ (to_spreadsheet env (some s)).events) := by
  have he := to_spreadsheet_events_of_valid env s ho ha hs
  refine ⟨he, ?_, fun row => ?_⟩
  · rw [he]
    simp [openEvents, isAppendEvent]
  · rw [he]
    simp [openEvents]

/-- C8 witness: at the concrete prompt "A quiet harbor at dawn" in the
healthy environment. -/
theorem c8_single_append_to_process_only_witness :
    0 < (stripStr "A quiet harbor at dawn").length ∧
    (to_spreadsheet allOkEnv (some "A quiet harbor at dawn")).events
        = openEvents ++ [SheetEvent.appendRow "Process" ["A quiet harbor at dawn"]] ∧
    ((to_spreadsheet allOkEnv (some "A quiet harbor at dawn")).events.countP isAppendEvent)
        = 1 ∧
    (∀ row, SheetEvent.appendRow "Done" row ∉
      (to_spreadsheet allOkEnv (some "A quiet harbor at dawn")).events) :=
  ⟨by decide,
   c8_single_append_to_process_only allOkEnv "A quiet harbor at dawn" rfl rfl (by decide)⟩

/-- C9 (confirmed): `to_spreadsheet` connects before validating its input:
whenever the connection step succeeds, the spreadsheet open and both
worksheet selections are performed first — for every input, including empty
or None — and whenever the connection step fails, the raised failure is the
classification of the connection fault, taking precedence over the
empty-input failure. -/
theorem c9_opens_before_validating (env : SheetsEnv) (t : Option String) :
    (env.openResult = Except.ok () →
      ∃ rest, (to_spreadsheet env t).events = openEvents ++ rest) ∧
    (∀ d, env.openResult = Except.error d →
      (to_spreadsheet env t).result = Except.error (sheetErrorMessage d)) := by
  constructor
  · intro ho
    cases t with
    | none => exact ⟨[], by simp [to_spreadsheet, ho]⟩
    | some s =>
        by_cases hs : 0 < (stripStr s).length
        · cases ha : env.appendResult with
          | ok u =>
              cases u
              exact ⟨[SheetEvent.appendRow "Process" [s]], by simp [to_spreadsheet, ho, hs, ha]⟩
          | error d => exact ⟨[], by simp [to_spreadsheet, ho, hs, ha]⟩
        · exact ⟨[], by simp [to_spreadsheet, ho, hs]⟩
  · intro d hd
    simp [to_spreadsheet, hd]

/-- C9 witness: with None input the remote opens still happen, and with a
failing connection ("Worksheet not found") the not-found classification is
raised instead of the empty-input failure. -/
theorem c9_opens_before_validating_witness :
    (∃ rest, (to_spreadsheet allOkEnv none).events = openEvents ++ rest) ∧
    (to_spreadsheet
        { openResult := Except.error "Worksheet not found", appendResult := Except.ok () }
        none).result
      = Except.error (sheetErrorMessage "Worksheet not found") :=
  ⟨(c9_opens_before_validating allOkEnv none).1 rfl,
   (c9_opens_before_validating
      { openResult := Except.error "Worksheet not found", appendResult := Except.ok () }
      none).2 "Worksheet not found" rfl⟩
